import Mathlib

/-!
nat-checker: shallow embedding and verification.

This file embeds the core of the `moepig/nat-checker` Go repository in Lean 4
and proves properties of the embedded definitions.

Bytes are modelled as `Nat` (with explicit `< 256` bounds where they matter),
16-bit quantities as `Nat` with explicit `% 2^16` style arithmetic where the Go
code casts to `uint16`, and byte buffers as `List Nat`.  Fallible Go functions
returning `(value, error)` are modelled with `Option` / `Except`.  The
network-facing classifiers are modelled by passing the outcomes of the UDP
probes explicitly as an environment, mirroring the Go control flow exactly.
-/

deriving instance DecidableEq for Except

namespace NatChecker

/-! ## STUN constants (client.go) -/

/-- STUN message type `BindingRequest` (0x0001). -/
def BindingRequest : Nat := 0x0001

/-- STUN message type `BindingResponse` (0x0101). -/
def BindingResponse : Nat := 0x0101

/-- STUN message type `BindingErrorResponse` (0x0111). -/
def BindingErrorResponse : Nat := 0x0111

/-- Attribute type `MAPPED-ADDRESS` (0x0001). -/
def MappedAddress : Nat := 0x0001

/-- Attribute type `XOR-MAPPED-ADDRESS` (0x0020). -/
def XorMappedAddress : Nat := 0x0020

/-- Attribute type `CHANGE-REQUEST` (0x0003). -/
def ChangeRequest : Nat := 0x0003

/-- Attribute type `CHANGED-ADDRESS` (0x0005). -/
def ChangedAddress : Nat := 0x0005

/-- Attribute type `OTHER-ADDRESS` (0x802C). -/
def OtherAddress : Nat := 0x802C

/-- Attribute type `ERROR-CODE` (0x0009). -/
def ErrorCode : Nat := 0x0009

/-- The STUN magic cookie 0x2112A442 as its big-endian byte sequence
(`STUNMagicCookieBytes` in client.go). -/
def STUNMagicCookieBytes : List Nat := [0x21, 0x12, 0xA4, 0x42]

/-! ## Data model (client.go) -/

/-- One STUN attribute: `STUNAttribute` in client.go.  `Type` and `Length` are
`uint16` in Go, `Value` is a byte slice. -/
structure STUNAttribute where
  type : Nat
  length : Nat
  value : List Nat
  deriving DecidableEq, Repr

/-- A STUN message: `STUNMessage` in client.go.  The transaction identifier is
a `[12]byte` in Go, modelled as a byte list (well-formed values have
length 12). -/
structure STUNMessage where
  msgType : Nat
  transactionID : List Nat
  attributes : List STUNAttribute
  deriving DecidableEq, Repr

/-- A UDP address as used by the classifiers (`*net.UDPAddr`): an IP given by
its bytes and a port. -/
structure UDPAddr where
  ip : List Nat
  port : Nat
  deriving DecidableEq, Repr

/-! ## Wire codec (client.go `encodeMessage` / `decodeMessage`) -/

/-- Big-endian 16-bit write `binary.BigEndian.PutUint16(buf, uint16 n)`:
the two bytes are `(n mod 2^16) / 256` and `n mod 256`. -/
def encode16 (n : Nat) : List Nat := [n / 256 % 256, n % 256]

/-- Number of 4-byte-alignment padding bytes after a value of `n` bytes
(`if attr.Length%4 != 0 { 4 - attr.Length%4 }` in client.go). -/
def padLen (n : Nat) : Nat := if n % 4 = 0 then 0 else 4 - n % 4

/-- The Go builtin `copy(dst, src)` into a zero-initialised window of `n` bytes: the
first `min n src.length` bytes come from `src`, the rest stay zero. -/
def fitTo (n : Nat) (v : List Nat) : List Nat :=
  v.take n ++ List.replicate (n - v.length) 0

/-- Serialisation of one attribute in `encodeMessage`: type, length (each two
big-endian bytes), value window of `Length` bytes, zero padding to a 4-byte
boundary. -/
def encodeAttr (a : STUNAttribute) : List Nat :=
  encode16 a.type ++ encode16 a.length ++ fitTo a.length a.value ++
    List.replicate (padLen a.length) 0

/-- Serialisation of the attribute section: attributes in list order. -/
def encodeAttrs : List STUNAttribute → List Nat
  | [] => []
  | a :: rest => encodeAttr a ++ encodeAttrs rest

/-- The attribute-section length computed by the first loop of
`encodeMessage`: `4 + attr.Length` plus padding, summed over attributes. -/
def attrTotalLen : List STUNAttribute → Nat
  | [] => 0
  | a :: rest => 4 + a.length + padLen a.length + attrTotalLen rest

/-- `encodeMessage` (client.go): 2 bytes message type, 2 bytes attribute
section length (as `uint16`), 4 bytes magic cookie, 12 transaction-ID bytes,
then the serialised attributes. -/
def encodeMessage (m : STUNMessage) : List Nat :=
  encode16 m.msgType ++ encode16 (attrTotalLen m.attributes) ++
    STUNMagicCookieBytes ++ fitTo 12 m.transactionID ++
    encodeAttrs m.attributes

/-- Attribute-section walk of `decodeMessage`, with explicit fuel (each loop
iteration consumes at least 4 bytes, so `data.length` is always enough fuel).
Mirrors the Go loop: stop when fewer than 4 bytes remain; stop when the
declared value length overruns the buffer; otherwise take the value and skip
the padding. -/
def decodeAttrsF : Nat → List Nat → List STUNAttribute
  | 0, _ => []
  | Nat.succ fuel, t1 :: t2 :: l1 :: l2 :: rest =>
    let len := l1 * 256 + l2
    if rest.length < len then []
    else
      ⟨t1 * 256 + t2, len, rest.take len⟩ ::
        decodeAttrsF fuel (rest.drop (len + padLen len))
  | Nat.succ _, _ => []

/-- The attribute-section walk of `decodeMessage`. -/
def decodeAttrs (data : List Nat) : List STUNAttribute :=
  decodeAttrsF data.length data

/-- `decodeMessage` (client.go): fails only when the input is shorter than the
20-byte header; otherwise reads the message type from bytes 0..2, the
transaction ID from bytes 8..20, and walks the attribute section from
byte 20 on.  The declared message length and the magic-cookie bytes are not
inspected. -/
def decodeMessage (data : List Nat) : Option STUNMessage :=
  if data.length < 20 then none
  else
    some
      { msgType := data.getD 0 0 * 256 + data.getD 1 0
        transactionID := (data.drop 8).take 12
        attributes := decodeAttrs (data.drop 20) }

/-! ## Address parsing (client.go `parseAddress`) -/

/-- The distinct error cases of `parseAddress`. -/
inductive AddrError where
  | tooShort
  | ipv6TooShort
  | unsupportedFamily
  deriving DecidableEq, Repr

/-- `parseAddress` (client.go): reads family from byte 1 and port from
bytes 2..4; for IPv4 takes address bytes 4..8, for IPv6 bytes 4..20.  In XOR
mode the port is XORed with 0x2112 and the address bytes with the magic
cookie (IPv4) or the magic cookie followed by the transaction ID (IPv6). -/
def parseAddress (data : List Nat) (isXor : Bool) (txID : List Nat) :
    Except AddrError UDPAddr :=
  if data.length < 8 then .error .tooShort
  else
    let family := data.getD 1 0
    let port := data.getD 2 0 * 256 + data.getD 3 0
    if family = 0x01 then
      let ip := (data.drop 4).take 4
      if isXor then
        .ok ⟨List.zipWith (· ^^^ ·) ip STUNMagicCookieBytes, port ^^^ 0x2112⟩
      else .ok ⟨ip, port⟩
    else if family = 0x02 then
      if data.length < 20 then .error .ipv6TooShort
      else
        let ip := (data.drop 4).take 16
        if isXor then
          .ok ⟨List.zipWith (· ^^^ ·) ip (STUNMagicCookieBytes ++ fitTo 12 txID),
               port ^^^ 0x2112⟩
        else .ok ⟨ip, port⟩
    else .error .unsupportedFamily

/-! ## Error extraction (client.go `extractErrorCode`) -/

/-- The attribute scan of `extractErrorCode`: the first attribute whose type
is ERROR-CODE *and* whose value holds at least 4 bytes yields
`(class*100 + number, reason bytes)`; otherwise `(0, empty)`.  The reason is
kept as its raw byte list (the Go conversion `string(attr.Value[4:])` preserves the
bytes). -/
def extractErrorCodeAttrs : List STUNAttribute → Nat × List Nat
  | [] => (0, [])
  | a :: rest =>
    if a.type = ErrorCode ∧ 4 ≤ a.value.length then
      ((a.value.getD 2 0 &&& 0x07) * 100 + a.value.getD 3 0, a.value.drop 4)
    else extractErrorCodeAttrs rest

/-- `extractErrorCode` (client.go). -/
def extractErrorCode (msg : STUNMessage) : Nat × List Nat :=
  extractErrorCodeAttrs msg.attributes

/-! ## Transaction engine (client.go `SendBindingRequest`,
`GetAlternateAddress`) -/

/-- The ways a binding transaction can fail, classifying the Go `error`
values: `timeout` stands for any error whose `net.Error.Timeout()` is true
(read-deadline expiry), `stunError` for the error built from a Binding Error
Response, `addrError` for a `parseAddress` failure, `noMappedAddress` /
`noAlternateAddress` for a response without the looked-for attribute, and
`ioError` for any other transport error.  Only the timeout/non-timeout
distinction is ever branched on by the classifiers, as in the Go code. -/
inductive BindingError where
  | timeout
  | stunError (code : Nat) (reason : List Nat)
  | addrError (e : AddrError)
  | noMappedAddress
  | noAlternateAddress
  | ioError
  deriving DecidableEq, Repr

/-- Lifts a `parseAddress` result into a binding-transaction result. -/
def liftAddr : Except AddrError UDPAddr → Except BindingError UDPAddr
  | .ok a => .ok a
  | .error e => .error (.addrError e)

/-- The `netErr.Timeout()` test of Go in `CheckFilteringBehavior`: true exactly for
the timeout error class. -/
def isTimeoutErr : BindingError → Bool
  | .timeout => true
  | _ => false

/-- The attribute scan of `SendBindingRequest` (client.go lines 235-242): for
each attribute in order, first check for XOR-MAPPED-ADDRESS, then for
MAPPED-ADDRESS, and return whichever matches first together with its XOR
mode. -/
def findAddressAttr : List STUNAttribute → Option (Bool × List Nat)
  | [] => none
  | a :: rest =>
    if a.type = XorMappedAddress then some (true, a.value)
    else if a.type = MappedAddress then some (false, a.value)
    else findAddressAttr rest

/-- The response-processing tail of `SendBindingRequest` (client.go lines
227-244): an error response yields the extracted STUN error; otherwise the
first XOR-MAPPED-ADDRESS or MAPPED-ADDRESS attribute is parsed in the
corresponding mode; otherwise "mapped address not found". -/
def processBindingResponse (response : STUNMessage) :
    Except BindingError UDPAddr :=
  if response.msgType = BindingErrorResponse then
    .error (.stunError (extractErrorCode response).1
      (extractErrorCode response).2)
  else
    match findAddressAttr response.attributes with
    | some (x, v) => liftAddr (parseAddress v x response.transactionID)
    | none => .error .noMappedAddress

/-- The attribute scan of `GetAlternateAddress` (client.go lines 533-537):
the first attribute whose type is OTHER-ADDRESS *or* CHANGED-ADDRESS is
selected (one combined test per attribute, in list order). -/
def findAlternateAttr : List STUNAttribute → Option (List Nat)
  | [] => none
  | a :: rest =>
    if a.type = OtherAddress ∨ a.type = ChangedAddress then some a.value
    else findAlternateAttr rest

/-- The response-processing tail of `GetAlternateAddress` (client.go lines
532-539): parse the selected attribute as a non-XOR address, or fail with
"OTHER-ADDRESS not found in response".  (This function performs no
error-response check.) -/
def processAlternateResponse (response : STUNMessage) :
    Except BindingError UDPAddr :=
  match findAlternateAttr response.attributes with
  | some v => liftAddr (parseAddress v false response.transactionID)
  | none => .error .noAlternateAddress

/-! ## Mapping classifier (determineNATType, CheckMappingType) -/

/-- `NATMappingType`. -/
inductive NATMappingType where
  | EndpointIndependent
  | AddressDependent
  | AddressPortDependent
  | Unknown
  deriving DecidableEq, Repr

/-- `NATFilteringType`. -/
inductive NATFilteringType where
  | EndpointIndependentFiltering
  | AddressDependentFiltering
  | AddressPortDependentFiltering
  | FilteringUnknown
  deriving DecidableEq, Repr

/-- `determineNATType`: compares only the port fields of the three observed
mappings. -/
def determineNATType (mappingA1 mappingB1 mappingA2 : UDPAddr) :
    NATMappingType :=
  if mappingA1.port ≠ mappingA2.port then .AddressPortDependent
  else if mappingA1.port = mappingB1.port then .EndpointIndependent
  else .AddressDependent

/-- `CheckMappingResponseData`. -/
structure CheckMappingResponseData where
  mappingA1 : UDPAddr
  mappingB1 : UDPAddr
  mappingA2 : UDPAddr
  deriving DecidableEq, Repr

/-- `CheckMappingResult`. -/
structure CheckMappingResult where
  natType : NATMappingType
  response : CheckMappingResponseData
  deriving DecidableEq, Repr

/-- The stage labels attached to mapping-probe failures. -/
inductive MappingStage where
  | StageA1
  | StageB1
  | StageA2
  deriving DecidableEq, Repr

/-- The port-fallback loop shared by the classifiers: try port 3478; on any
error try port 19302; the error of the last attempt survives. -/
def tryPorts (probe : Nat → Except BindingError UDPAddr) :
    Except BindingError UDPAddr :=
  match probe 3478 with
  | .ok a => .ok a
  | .error _ => probe 19302

/-- The outcomes of the three mapping probes, each a function of the UDP port
tried; this is the network environment `CheckMappingType` runs against. -/
structure MappingEnv where
  probeA1 : Nat → Except BindingError UDPAddr
  probeB1 : Nat → Except BindingError UDPAddr
  probeA2 : Nat → Except BindingError UDPAddr

/-- `CheckMappingType` over an explicit probe environment: runs the three
probes with the port fallback, fails fast with the stage of the first probe
whose attempts all failed, and otherwise classifies with
`determineNATType`. -/
def CheckMappingType (env : MappingEnv) :
    Except (MappingStage × BindingError) CheckMappingResult :=
  match tryPorts env.probeA1 with
  | .error e => .error (.StageA1, e)
  | .ok a1 =>
    match tryPorts env.probeB1 with
    | .error e => .error (.StageB1, e)
    | .ok b1 =>
      match tryPorts env.probeA2 with
      | .error e => .error (.StageA2, e)
      | .ok a2 =>
        .ok ⟨determineNATType a1 b1 a2, ⟨a1, b1, a2⟩⟩

/-! ## Filtering classifier (CheckFilteringBehavior) -/

/-- `STUNServerSupportInfo`. -/
structure STUNServerSupportInfo where
  supportsChangeRequest : Bool
  supportsOtherAddress : Bool
  deriving DecidableEq, Repr

/-- `CheckFilteringResponseData`. -/
structure CheckFilteringResponseData where
  otherAddress : Option UDPAddr
  testIIResponse : Bool
  testIIIResponse : Bool
  deriving DecidableEq, Repr

/-- `CheckFilteringResult`. -/
structure CheckFilteringResult where
  filteringType : NATFilteringType
  response : CheckFilteringResponseData
  serverSupport : STUNServerSupportInfo
  deriving DecidableEq, Repr

/-- The network environment of one `CheckFilteringBehavior` run: the outcome
of the Step-1 alternate-address probe per port, and the outcomes of the
Test II (change IP+port) and Test III (change port) binding requests. -/
structure FilteringEnv where
  alternate : Nat → Except BindingError UDPAddr
  testII : Except BindingError UDPAddr
  testIII : Except BindingError UDPAddr

/-- `CheckFilteringBehavior` over an explicit probe environment, mirroring the
Go control flow: no alternate address → Unknown; Test II success →
endpoint-independent filtering; Test II non-timeout error (a STUN error
response in particular) → Unknown with `SupportsChangeRequest=false` and no
Test III; Test II timeout → run Test III, whose success means
address-dependent filtering and anything else address-and-port-dependent
filtering. -/
def CheckFilteringBehavior (env : FilteringEnv) : CheckFilteringResult :=
  match tryPorts env.alternate with
  | .error _ =>
    { filteringType := .FilteringUnknown
      response := ⟨none, false, false⟩
      serverSupport := ⟨false, false⟩ }
  | .ok otherAddr =>
    match env.testII with
    | .ok _ =>
      { filteringType := .EndpointIndependentFiltering
        response := ⟨some otherAddr, true, false⟩
        serverSupport := ⟨true, true⟩ }
    | .error e =>
      if isTimeoutErr e then
        match env.testIII with
        | .ok _ =>
          { filteringType := .AddressDependentFiltering
            response := ⟨some otherAddr, false, true⟩
            serverSupport := ⟨true, true⟩ }
        | .error _ =>
          { filteringType := .AddressPortDependentFiltering
            response := ⟨some otherAddr, false, false⟩
            serverSupport := ⟨true, true⟩ }
      else
        { filteringType := .FilteringUnknown
          response := ⟨some otherAddr, false, false⟩
          serverSupport := ⟨false, true⟩ }

/-! ## Combined taxonomy (DetailedNATType.LegacyName) -/

/-- `DetailedNATType`. -/
structure DetailedNATType where
  mapping : NATMappingType
  filtering : NATFilteringType
  deriving DecidableEq, Repr

/-- `DetailedNATType.LegacyName`: the sequence of guards from the Go
method. -/
def DetailedNATType.LegacyName (d : DetailedNATType) : String :=
  if d.mapping = .EndpointIndependent ∧
      d.filtering = .EndpointIndependentFiltering then "Full Cone NAT"
  else if d.mapping = .EndpointIndependent ∧
      d.filtering = .AddressDependentFiltering then "Restricted Cone NAT"
  else if d.mapping = .EndpointIndependent ∧
      d.filtering = .AddressPortDependentFiltering then
    "Port Restricted Cone NAT"
  else if d.mapping = .AddressDependent ∨
      d.mapping = .AddressPortDependent then "Symmetric NAT"
  else "Unknown NAT Type"

/-! ## Well-formedness

The Go types impose: message type, attribute type and attribute length are
`uint16`; transaction IDs are `[12]byte`; buffer contents are bytes.  A
message is well-formed when additionally, for each attribute, the `Length` field
equals the byte length of its `Value`. -/

/-- Well-formedness of an attribute value. -/
abbrev wfAttr (a : STUNAttribute) : Prop :=
  a.type < 65536 ∧ a.length < 65536 ∧ a.length = a.value.length ∧
    ∀ b ∈ a.value, b < 256

/-- Well-formedness of a message value. -/
abbrev wfMessage (m : STUNMessage) : Prop :=
  m.msgType < 65536 ∧ m.transactionID.length = 12 ∧
    (∀ b ∈ m.transactionID, b < 256) ∧ ∀ a ∈ m.attributes, wfAttr a

/-! ## Codec lemmas -/

theorem fitTo_length (n : Nat) (v : List Nat) : (fitTo n v).length = n := by
  simp only [fitTo, List.length_append, List.length_take, List.length_replicate]
  omega

theorem fitTo_eq_self {n : Nat} {v : List Nat} (h : v.length = n) :
    fitTo n v = v := by
  subst h
  simp [fitTo]

/-- Extra fuel beyond the byte count does not change the attribute walk. -/
theorem decodeAttrsF_eq (fuel : Nat) :
    ∀ data : List Nat, data.length ≤ fuel →
      decodeAttrsF fuel data = decodeAttrs data := by
  induction fuel using Nat.strong_induction_on with
  | _ fuel ih =>
    intro data h
    match fuel, data with
    | 0, data =>
      have hd : data = [] := List.eq_nil_of_length_eq_zero (Nat.le_zero.mp h)
      subst hd
      rfl
    | Nat.succ f, [] => rfl
    | Nat.succ f, [t1] => rfl
    | Nat.succ f, [t1, t2] => rfl
    | Nat.succ f, [t1, t2, l1] => rfl
    | Nat.succ f, t1 :: t2 :: l1 :: l2 :: rest =>
      have hlen : (t1 :: t2 :: l1 :: l2 :: rest).length =
          Nat.succ (rest.length + 3) := by simp
      rw [decodeAttrs, hlen]
      simp only [decodeAttrsF]
      have hdrop : ∀ k : Nat, (rest.drop k).length ≤ rest.length := by
        intro k; simp
      have hrest : rest.length + 3 ≤ f := by
        simp at h; omega
      split
      · rfl
      · have e1 : decodeAttrsF f
            (rest.drop (l1 * 256 + l2 + padLen (l1 * 256 + l2))) =
            decodeAttrs (rest.drop (l1 * 256 + l2 + padLen (l1 * 256 + l2))) :=
          ih f (by omega) _ (le_trans (hdrop _) (by omega))
        have e2 : decodeAttrsF (rest.length + 3)
            (rest.drop (l1 * 256 + l2 + padLen (l1 * 256 + l2))) =
            decodeAttrs (rest.drop (l1 * 256 + l2 + padLen (l1 * 256 + l2))) :=
          ih (rest.length + 3) (by omega) _ (le_trans (hdrop _) (by omega))
        rw [e1, e2]

/-- One step of the attribute walk, phrased on `decodeAttrs`. -/
theorem decodeAttrs_cons (t1 t2 l1 l2 : Nat) (rest : List Nat) :
    decodeAttrs (t1 :: t2 :: l1 :: l2 :: rest) =
      if rest.length < l1 * 256 + l2 then []
      else
        ⟨t1 * 256 + t2, l1 * 256 + l2, rest.take (l1 * 256 + l2)⟩ ::
          decodeAttrs (rest.drop (l1 * 256 + l2 + padLen (l1 * 256 + l2))) := by
  have h0 : decodeAttrs (t1 :: t2 :: l1 :: l2 :: rest) =
      decodeAttrsF (Nat.succ (rest.length + 3)) (t1 :: t2 :: l1 :: l2 :: rest) :=
    rfl
  rw [h0]
  simp only [decodeAttrsF]
  split
  · rfl
  · rw [decodeAttrsF_eq (rest.length + 3) _
      (le_trans (by simp) (by omega : rest.length ≤ rest.length + 3))]

/-- Decoding an encoded attribute list followed by arbitrary trailing bytes
recovers exactly the attributes and continues on the trailing bytes. -/
theorem decodeAttrs_encodeAttrs (pre : List STUNAttribute) (tail : List Nat)
    (h : ∀ a ∈ pre, wfAttr a) :
    decodeAttrs (encodeAttrs pre ++ tail) = pre ++ decodeAttrs tail := by
  induction pre with
  | nil => simp [encodeAttrs]
  | cons a pre ih =>
    obtain ⟨t, l, v⟩ := a
    obtain ⟨ht, hl, hv, hb⟩ := h _ (List.mem_cons_self _ _)
    simp only at ht hl hv
    have hwf : ∀ x ∈ pre, wfAttr x := fun x hx => h x (List.mem_cons_of_mem _ hx)
    have hform : encodeAttrs (⟨t, l, v⟩ :: pre) ++ tail =
        t / 256 % 256 :: t % 256 :: l / 256 % 256 :: l % 256 ::
          (v ++ (List.replicate (padLen l) 0 ++ (encodeAttrs pre ++ tail))) := by
      simp [encodeAttrs, encodeAttr, encode16, fitTo_eq_self hv.symm]
    rw [hform, decodeAttrs_cons]
    have hll : l / 256 % 256 * 256 + l % 256 = l := by omega
    have htt : t / 256 % 256 * 256 + t % 256 = t := by omega
    rw [hll, htt]
    rw [if_neg (by simp; omega)]
    have htake : (v ++ (List.replicate (padLen l) 0 ++
        (encodeAttrs pre ++ tail))).take l = v := by
      conv_lhs => rw [hv]
      exact List.take_left v _
    have hdrop : (v ++ (List.replicate (padLen l) 0 ++
        (encodeAttrs pre ++ tail))).drop (l + padLen l) =
        encodeAttrs pre ++ tail := by
      rw [← List.append_assoc]
      have hlen2 : (v ++ List.replicate (padLen l) 0).length = l + padLen l := by
        simp [hv]
      rw [← hlen2]
      exact List.drop_left _ _
    rw [htake, hdrop, ih hwf]
    rfl

/-! ## Claim theorems -/

/-- C5: for every well-formed STUN message (for each attribute the `Length`
field equal to the byte length of its `Value`, together with the bounds the Go
types impose), `decodeMessage (encodeMessage m)` succeeds and returns a
message with the same message type, the same 12-byte transaction identifier,
and the same attribute `(type, length, value)` triples — here literally the
same message value. -/
theorem encode_decode_roundtrip (m : STUNMessage) (h : wfMessage m) :
    decodeMessage (encodeMessage m) = some m := by
  obtain ⟨mt, txid, attrs⟩ := m
  obtain ⟨hmt, htl, htb, hattrs⟩ := h
  simp only at hmt htl hattrs
  have hform : encodeMessage ⟨mt, txid, attrs⟩ =
      mt / 256 % 256 :: mt % 256 :: attrTotalLen attrs / 256 % 256 ::
        attrTotalLen attrs % 256 :: 0x21 :: 0x12 :: 0xA4 :: 0x42 ::
        (txid ++ encodeAttrs attrs) := by
    simp [encodeMessage, encode16, STUNMagicCookieBytes, fitTo_eq_self htl]
  rw [hform]
  have hlen : (mt / 256 % 256 :: mt % 256 :: attrTotalLen attrs / 256 % 256 ::
      attrTotalLen attrs % 256 :: 0x21 :: 0x12 :: 0xA4 :: 0x42 ::
      (txid ++ encodeAttrs attrs)).length =
      20 + (encodeAttrs attrs).length := by
    simp [htl]
    omega
  rw [decodeMessage, if_neg (by omega)]
  have hget0 : (mt / 256 % 256 :: mt % 256 :: attrTotalLen attrs / 256 % 256 ::
      attrTotalLen attrs % 256 :: 0x21 :: 0x12 :: 0xA4 :: 0x42 ::
      (txid ++ encodeAttrs attrs)).getD 0 0 = mt / 256 % 256 := rfl
  have hget1 : (mt / 256 % 256 :: mt % 256 :: attrTotalLen attrs / 256 % 256 ::
      attrTotalLen attrs % 256 :: 0x21 :: 0x12 :: 0xA4 :: 0x42 ::
      (txid ++ encodeAttrs attrs)).getD 1 0 = mt % 256 := rfl
  have hdrop8 : (mt / 256 % 256 :: mt % 256 :: attrTotalLen attrs / 256 % 256 ::
      attrTotalLen attrs % 256 :: 0x21 :: 0x12 :: 0xA4 :: 0x42 ::
      (txid ++ encodeAttrs attrs)).drop 8 = txid ++ encodeAttrs attrs := rfl
  have hdrop20 : (mt / 256 % 256 :: mt % 256 :: attrTotalLen attrs / 256 % 256 ::
      attrTotalLen attrs % 256 :: 0x21 :: 0x12 :: 0xA4 :: 0x42 ::
      (txid ++ encodeAttrs attrs)).drop 20 = (txid ++ encodeAttrs attrs).drop 12 :=
    rfl
  rw [hget0, hget1, hdrop8, hdrop20]
  have htake12 : (txid ++ encodeAttrs attrs).take 12 = txid := by
    conv_lhs => rw [← htl]
    exact List.take_left txid _
  have hdrop12 : (txid ++ encodeAttrs attrs).drop 12 = encodeAttrs attrs := by
    conv_lhs => rw [← htl]
    exact List.drop_left txid _
  rw [htake12, hdrop12]
  have hattrsdec : decodeAttrs (encodeAttrs attrs) = attrs := by
    have := decodeAttrs_encodeAttrs attrs [] hattrs
    simpa [decodeAttrs, decodeAttrsF] using this
  rw [hattrsdec]
  have : mt / 256 % 256 * 256 + mt % 256 = mt := by omega
  rw [this]

/-- C5 witness: a concrete well-formed message (two attributes, one with a
non-4-aligned value length) round-trips. -/
theorem encode_decode_roundtrip_witness :
    wfMessage ⟨0x0111, [1, 2, 3, 4, 5, 6, 7, 8, 9, 10, 11, 12],
      [⟨9, 5, [0, 0, 4, 20, 65]⟩, ⟨3, 4, [0, 0, 0, 6]⟩]⟩ ∧
    decodeMessage (encodeMessage ⟨0x0111, [1, 2, 3, 4, 5, 6, 7, 8, 9, 10, 11, 12],
      [⟨9, 5, [0, 0, 4, 20, 65]⟩, ⟨3, 4, [0, 0, 0, 6]⟩]⟩) =
      some ⟨0x0111, [1, 2, 3, 4, 5, 6, 7, 8, 9, 10, 11, 12],
      [⟨9, 5, [0, 0, 4, 20, 65]⟩, ⟨3, 4, [0, 0, 0, 6]⟩]⟩ :=
  ⟨by decide, encode_decode_roundtrip _ (by decide)⟩

/-- C9: `decodeMessage` fails exactly on inputs shorter than 20 bytes — the
magic-cookie bytes, the declared message length and the attribute section
are never a cause of failure — and an attribute whose declared value length
overruns the buffer is dropped together with the rest of the buffer, keeping
the attributes decoded before it. -/
theorem decodeMessage_error_iff_short :
    (∀ data : List Nat, (decodeMessage data).isSome ↔ 20 ≤ data.length) ∧
    (∀ (pre : List STUNAttribute) (t1 t2 l1 l2 : Nat) (rest : List Nat),
      (∀ a ∈ pre, wfAttr a) → rest.length < l1 * 256 + l2 →
      decodeAttrs (encodeAttrs pre ++ t1 :: t2 :: l1 :: l2 :: rest) = pre) := by
  constructor
  · intro data
    by_cases h : data.length < 20
    · simp [decodeMessage, h]
    · simp [decodeMessage, h]
      omega
  · intro pre t1 t2 l1 l2 rest hwf hshort
    rw [decodeAttrs_encodeAttrs pre _ hwf, decodeAttrs_cons, if_pos hshort,
      List.append_nil]

/-- C9 witness: a 20-byte all-zero datagram decodes, and a single well-formed
attribute followed by a truncated attribute header decodes to just that
attribute. -/
theorem decodeMessage_error_iff_short_witness :
    (decodeMessage (List.replicate 20 0)).isSome ∧
    decodeAttrs (encodeAttrs [⟨9, 4, [0, 0, 4, 20]⟩] ++ [0, 1, 0, 50]) =
      [⟨9, 4, [0, 0, 4, 20]⟩] :=
  ⟨(decodeMessage_error_iff_short.1 _).mpr (by decide),
   decodeMessage_error_iff_short.2 [⟨9, 4, [0, 0, 4, 20]⟩] 0 1 0 50 []
     (by decide) (by decide)⟩

/-- C1: `determineNATType` classifies exactly by the claimed port rule —
`AddressAndPortDependent` (named `AddressPortDependent` in the code) when
`A1.port ≠ A2.port`, else `EndpointIndependent` when `A1.port = B1.port`,
else `AddressDependent` — and the result depends only on the three port
components, never on the IP addresses. -/
theorem determineNATType_port_rule :
    (∀ a1 b1 a2 : UDPAddr,
      (a1.port ≠ a2.port →
        determineNATType a1 b1 a2 = .AddressPortDependent) ∧
      (a1.port = a2.port → a1.port = b1.port →
        determineNATType a1 b1 a2 = .EndpointIndependent) ∧
      (a1.port = a2.port → a1.port ≠ b1.port →
        determineNATType a1 b1 a2 = .AddressDependent)) ∧
    (∀ (a1 b1 a2 : UDPAddr) (ip1 ip2 ip3 : List Nat),
      determineNATType ⟨ip1, a1.port⟩ ⟨ip2, b1.port⟩ ⟨ip3, a2.port⟩ =
        determineNATType a1 b1 a2) := by
  refine ⟨fun a1 b1 a2 => ⟨fun h => ?_, fun h1 h2 => ?_, fun h1 h2 => ?_⟩,
    fun a1 b1 a2 ip1 ip2 ip3 => ?_⟩
  · rw [determineNATType, if_pos h]
  · rw [determineNATType, if_neg (by omega), if_pos (by omega)]
  · rw [determineNATType, if_neg (by omega), if_neg (by omega)]
  · simp [determineNATType]

/-- C1 witness: the three branches at concrete endpoints whose IP addresses
all differ. -/
theorem determineNATType_port_rule_witness :
    determineNATType ⟨[1], 10⟩ ⟨[2], 10⟩ ⟨[3], 10⟩ = .EndpointIndependent ∧
    determineNATType ⟨[1], 10⟩ ⟨[2], 11⟩ ⟨[3], 10⟩ = .AddressDependent ∧
    determineNATType ⟨[1], 10⟩ ⟨[2], 11⟩ ⟨[3], 12⟩ = .AddressPortDependent :=
  ⟨(determineNATType_port_rule.1 _ _ _).2.1 rfl rfl,
   (determineNATType_port_rule.1 _ _ _).2.2 rfl (by decide),
   (determineNATType_port_rule.1 _ _ _).1 (by decide)⟩

/-- C6: XOR-obfuscating an IPv4 `(ip, port)` — port with `0x2112`, address
bytes with the magic cookie `0x2112A442` — and parsing the resulting 8-byte
payload in XOR mode recovers exactly `(ip, port)`, for every transaction
identifier. -/
theorem parseAddress_xor_ipv4_roundtrip :
    ∀ (i0 i1 i2 i3 port : Nat) (txID : List Nat),
      i0 < 256 → i1 < 256 → i2 < 256 → i3 < 256 → port < 65536 →
      parseAddress
        [0, 1, (port ^^^ 0x2112) / 256, (port ^^^ 0x2112) % 256,
         i0 ^^^ 0x21, i1 ^^^ 0x12, i2 ^^^ 0xA4, i3 ^^^ 0x42] true txID =
      .ok ⟨[i0, i1, i2, i3], port⟩ := by
  intro i0 i1 i2 i3 port txID h0 h1 h2 h3 hp
  have hport : (port ^^^ 0x2112) / 256 * 256 + (port ^^^ 0x2112) % 256 =
      port ^^^ 0x2112 := by omega
  simp [parseAddress, STUNMagicCookieBytes, hport, Nat.xor_cancel_right]

/-- C6 witness: the concrete scenario from the spec, `203.0.113.1:54321`. -/
theorem parseAddress_xor_ipv4_roundtrip_witness :
    parseAddress
      [0, 1, (54321 ^^^ 0x2112) / 256, (54321 ^^^ 0x2112) % 256,
       203 ^^^ 0x21, 0 ^^^ 0x12, 113 ^^^ 0xA4, 1 ^^^ 0x42] true
      [1, 2, 3, 4, 5, 6, 7, 8, 9, 10, 11, 12] =
      .ok ⟨[203, 0, 113, 1], 54321⟩ :=
  parseAddress_xor_ipv4_roundtrip 203 0 113 1 54321 _
    (by decide) (by decide) (by decide) (by decide) (by decide)

/-- C8: `LegacyName` follows the claimed table — the three cone names for
endpoint-independent mapping with the three known filtering classes,
"Symmetric NAT" for address- or address-and-port-dependent mapping
regardless of filtering, and "Unknown NAT Type" for every other pair,
including endpoint-independent mapping with unknown filtering. -/
theorem legacyName_table :
    DetailedNATType.LegacyName
        ⟨.EndpointIndependent, .EndpointIndependentFiltering⟩ =
      "Full Cone NAT" ∧
    DetailedNATType.LegacyName
        ⟨.EndpointIndependent, .AddressDependentFiltering⟩ =
      "Restricted Cone NAT" ∧
    DetailedNATType.LegacyName
        ⟨.EndpointIndependent, .AddressPortDependentFiltering⟩ =
      "Port Restricted Cone NAT" ∧
    (∀ f : NATFilteringType,
      DetailedNATType.LegacyName ⟨.AddressDependent, f⟩ = "Symmetric NAT") ∧
    (∀ f : NATFilteringType,
      DetailedNATType.LegacyName ⟨.AddressPortDependent, f⟩ =
        "Symmetric NAT") ∧
    DetailedNATType.LegacyName ⟨.EndpointIndependent, .FilteringUnknown⟩ =
      "Unknown NAT Type" ∧
    (∀ f : NATFilteringType,
      DetailedNATType.LegacyName ⟨.Unknown, f⟩ = "Unknown NAT Type") := by
  refine ⟨rfl, rfl, rfl, fun f => ?_, fun f => ?_, rfl, fun f => ?_⟩
  all_goals cases f <;> rfl

/-- C10: `determineNATType` never returns `Unknown`, and therefore a
successful `CheckMappingType` run never reports an `Unknown` mapping
behavior. -/
theorem determineNATType_never_unknown :
    (∀ a1 b1 a2 : UDPAddr, determineNATType a1 b1 a2 ≠ .Unknown) ∧
    (∀ (env : MappingEnv) (r : CheckMappingResult),
      CheckMappingType env = .ok r → r.natType ≠ .Unknown) := by
  have h1 : ∀ a1 b1 a2 : UDPAddr, determineNATType a1 b1 a2 ≠ .Unknown := by
    intro a1 b1 a2
    unfold determineNATType
    split
    · simp
    · split <;> simp
  refine ⟨h1, fun env r h => ?_⟩
  unfold CheckMappingType at h
  cases ha1 : tryPorts env.probeA1 with
  | error e => rw [ha1] at h; exact absurd h (by simp)
  | ok a1 =>
    rw [ha1] at h
    cases hb1 : tryPorts env.probeB1 with
    | error e => rw [hb1] at h; exact absurd h (by simp)
    | ok b1 =>
      rw [hb1] at h
      cases ha2 : tryPorts env.probeA2 with
      | error e => rw [ha2] at h; exact absurd h (by simp)
      | ok a2 =>
        rw [ha2] at h
        simp only [Except.ok.injEq] at h
        rw [← h]
        exact h1 a1 b1 a2

/-- C10 witness: a run in which all three probes answer from the same port
classifies as endpoint-independent, which is not `Unknown`. -/
theorem determineNATType_never_unknown_witness :
    CheckMappingType
        ⟨fun _ => .ok ⟨[1], 10⟩, fun _ => .ok ⟨[1], 10⟩, fun _ => .ok ⟨[1], 10⟩⟩ =
      .ok ⟨.EndpointIndependent, ⟨⟨[1], 10⟩, ⟨[1], 10⟩, ⟨[1], 10⟩⟩⟩ ∧
    (⟨.EndpointIndependent, ⟨⟨[1], 10⟩, ⟨[1], 10⟩, ⟨[1], 10⟩⟩⟩ :
      CheckMappingResult).natType ≠ .Unknown :=
  ⟨rfl, determineNATType_never_unknown.2
    ⟨fun _ => .ok ⟨[1], 10⟩, fun _ => .ok ⟨[1], 10⟩, fun _ => .ok ⟨[1], 10⟩⟩
    _ rfl⟩

/-- The `SendBindingRequest` attribute scan skips attributes that are neither
XOR-MAPPED-ADDRESS nor MAPPED-ADDRESS. -/
theorem findAddressAttr_append (pre rest : List STUNAttribute)
    (h : ∀ x ∈ pre, x.type ≠ XorMappedAddress ∧ x.type ≠ MappedAddress) :
    findAddressAttr (pre ++ rest) = findAddressAttr rest := by
  induction pre with
  | nil => rfl
  | cons a pre ih =>
    obtain ⟨hx, hm⟩ := h a (List.mem_cons_self _ _)
    rw [List.cons_append, findAddressAttr, if_neg hx, if_neg hm]
    exact ih fun x hxm => h x (List.mem_cons_of_mem _ hxm)

/-- C2 counterexample: a Binding Success Response that carries a
MAPPED-ADDRESS attribute *before* an XOR-MAPPED-ADDRESS attribute is
resolved from the plain MAPPED-ADDRESS (`1.2.3.4:80`), not from the XOR
attribute (which would decode to `33.18.164.66:8466`), refuting the
"in either order" part of the claim. -/
theorem processBindingResponse_mapped_first :
    processBindingResponse ⟨0x0101, List.replicate 12 0,
      [⟨0x0001, 8, [0, 1, 0, 80, 1, 2, 3, 4]⟩,
       ⟨0x0020, 8, [0, 1, 0, 0, 0, 0, 0, 0]⟩]⟩ =
      .ok ⟨[1, 2, 3, 4], 80⟩ ∧
    processBindingResponse ⟨0x0101, List.replicate 12 0,
      [⟨0x0001, 8, [0, 1, 0, 80, 1, 2, 3, 4]⟩,
       ⟨0x0020, 8, [0, 1, 0, 0, 0, 0, 0, 0]⟩]⟩ ≠
      .ok ⟨[0x21, 0x12, 0xA4, 0x42], 0x2112⟩ := by
  constructor
  · decide
  · decide

/-- C2 (amended): on a non-error response, `SendBindingRequest` resolves the
*first* attribute in list order whose type is XOR-MAPPED-ADDRESS or
MAPPED-ADDRESS, in the mode of that attribute; XOR-MAPPED-ADDRESS takes
precedence only when it appears no later than the MAPPED-ADDRESS. -/
theorem processBindingResponse_first_match :
    ∀ (t : Nat) (txid : List Nat) (pre post : List STUNAttribute)
      (a : STUNAttribute),
      t ≠ BindingErrorResponse →
      (∀ x ∈ pre, x.type ≠ XorMappedAddress ∧ x.type ≠ MappedAddress) →
      (a.type = XorMappedAddress →
        processBindingResponse ⟨t, txid, pre ++ a :: post⟩ =
          liftAddr (parseAddress a.value true txid)) ∧
      (a.type ≠ XorMappedAddress → a.type = MappedAddress →
        processBindingResponse ⟨t, txid, pre ++ a :: post⟩ =
          liftAddr (parseAddress a.value false txid)) := by
  intro t txid pre post a ht hpre
  constructor
  · intro hx
    rw [processBindingResponse]
    rw [if_neg ht]
    simp only [findAddressAttr_append pre _ hpre, findAddressAttr, if_pos hx]
  · intro hnx hm
    rw [processBindingResponse]
    rw [if_neg ht]
    simp only [findAddressAttr_append pre _ hpre, findAddressAttr,
      if_neg hnx, if_pos hm]

/-- C2 witness: with an unrecognised attribute before it, a lone
XOR-MAPPED-ADDRESS is the one resolved, in XOR mode. -/
theorem processBindingResponse_first_match_witness :
    processBindingResponse ⟨0x0101, List.replicate 12 0,
      [⟨0x8028, 4, [1, 1, 1, 1]⟩, ⟨0x0020, 8, [0, 1, 0, 0, 0, 0, 0, 0]⟩]⟩ =
      liftAddr (parseAddress [0, 1, 0, 0, 0, 0, 0, 0] true
        (List.replicate 12 0)) :=
  (processBindingResponse_first_match 0x0101 (List.replicate 12 0)
    [⟨0x8028, 4, [1, 1, 1, 1]⟩] [] ⟨0x0020, 8, [0, 1, 0, 0, 0, 0, 0, 0]⟩
    (by decide) (by decide)).1 rfl

/-- The `extractErrorCode` scan skips attributes that are not an ERROR-CODE
with at least 4 value bytes. -/
theorem extractErrorCodeAttrs_append (pre rest : List STUNAttribute)
    (h : ∀ x ∈ pre, ¬(x.type = ErrorCode ∧ 4 ≤ x.value.length)) :
    extractErrorCodeAttrs (pre ++ rest) = extractErrorCodeAttrs rest := by
  induction pre with
  | nil => rfl
  | cons a pre ih =>
    rw [List.cons_append, extractErrorCodeAttrs,
      if_neg (h a (List.mem_cons_self _ _))]
    exact ih fun x hx => h x (List.mem_cons_of_mem _ hx)

/-- C4 counterexample: when the first ERROR-CODE attribute has a value
shorter than 4 bytes, `extractErrorCode` does not return `(0, "")` — it
skips the short attribute and decodes a later valid ERROR-CODE (420 here),
refuting the reading of the claim in which the first ERROR-CODE
attribute decides. -/
theorem extractErrorCode_skips_short :
    extractErrorCode ⟨0x0111, List.replicate 12 0,
      [⟨0x0009, 0, []⟩, ⟨0x0009, 4, [0, 0, 4, 20]⟩]⟩ = (420, []) ∧
    extractErrorCode ⟨0x0111, List.replicate 12 0,
      [⟨0x0009, 0, []⟩, ⟨0x0009, 4, [0, 0, 4, 20]⟩]⟩ ≠ (0, []) := by
  constructor
  · decide
  · decide

/-- C4 (amended): `extractErrorCode` scans for the first ERROR-CODE attribute
whose value holds at least 4 bytes — ERROR-CODE attributes with shorter
values are skipped — and returns `(class*100 + number, reason)` with class
the low 3 bits of the third value byte, number the fourth value byte, and
the reason the bytes after index 4 (empty if none); it returns `(0, "")`
when no such attribute exists. -/
theorem extractErrorCode_first_valid :
    (∀ (t : Nat) (txid : List Nat) (pre post : List STUNAttribute)
      (a : STUNAttribute),
      (∀ x ∈ pre, ¬(x.type = ErrorCode ∧ 4 ≤ x.value.length)) →
      a.type = ErrorCode → 4 ≤ a.value.length →
      extractErrorCode ⟨t, txid, pre ++ a :: post⟩ =
        ((a.value.getD 2 0 &&& 0x07) * 100 + a.value.getD 3 0,
         a.value.drop 4)) ∧
    (∀ (t : Nat) (txid : List Nat) (attrs : List STUNAttribute),
      (∀ x ∈ attrs, ¬(x.type = ErrorCode ∧ 4 ≤ x.value.length)) →
      extractErrorCode ⟨t, txid, attrs⟩ = (0, [])) := by
  constructor
  · intro t txid pre post a hpre ha hlen
    rw [extractErrorCode]
    simp only
    rw [extractErrorCodeAttrs_append pre _ hpre, extractErrorCodeAttrs,
      if_pos ⟨ha, hlen⟩]
  · intro t txid attrs h
    rw [extractErrorCode]
    simp only
    have : attrs ++ [] = attrs := List.append_nil attrs
    rw [← this, extractErrorCodeAttrs_append attrs _ h]
    rfl

/-- C4 witness: the error-420 scenario of the spec, preceded by a too-short
ERROR-CODE attribute, decodes to code 420 with reason "Unknown Attribute"
(as UTF-8 bytes). -/
theorem extractErrorCode_first_valid_witness :
    extractErrorCode ⟨0x0111, List.replicate 12 0,
      [⟨0x0009, 2, [0, 0]⟩,
       ⟨0x0009, 21, [0, 0, 4, 20, 85, 110, 107, 110, 111, 119, 110, 32,
         65, 116, 116, 114, 105, 98, 117, 116, 101]⟩]⟩ =
      (420, [85, 110, 107, 110, 111, 119, 110, 32,
        65, 116, 116, 114, 105, 98, 117, 116, 101]) :=
  extractErrorCode_first_valid.1 0x0111 (List.replicate 12 0)
    [⟨0x0009, 2, [0, 0]⟩]
    []
    ⟨0x0009, 21, [0, 0, 4, 20, 85, 110, 107, 110, 111, 119, 110, 32,
      65, 116, 116, 114, 105, 98, 117, 116, 101]⟩
    (by decide) (by decide) (by decide)

/-- The `GetAlternateAddress` scan skips attributes that are neither
OTHER-ADDRESS nor CHANGED-ADDRESS. -/
theorem findAlternateAttr_append (pre rest : List STUNAttribute)
    (h : ∀ x ∈ pre, ¬(x.type = OtherAddress ∨ x.type = ChangedAddress)) :
    findAlternateAttr (pre ++ rest) = findAlternateAttr rest := by
  induction pre with
  | nil => rfl
  | cons a pre ih =>
    rw [List.cons_append, findAlternateAttr,
      if_neg (h a (List.mem_cons_self _ _))]
    exact ih fun x hx => h x (List.mem_cons_of_mem _ hx)

/-- C7 counterexample: a response carrying a CHANGED-ADDRESS attribute
*before* an OTHER-ADDRESS attribute resolves to the CHANGED-ADDRESS
(`1.2.3.4:80`), not to the OTHER-ADDRESS (`5.6.7.8:81`), refuting the
search order "OTHER-ADDRESS first, then CHANGED-ADDRESS" stated by the
claim. -/
theorem getAlternate_changed_first :
    processAlternateResponse ⟨0x0101, List.replicate 12 0,
      [⟨0x0005, 8, [0, 1, 0, 80, 1, 2, 3, 4]⟩,
       ⟨0x802C, 8, [0, 1, 0, 81, 5, 6, 7, 8]⟩]⟩ =
      .ok ⟨[1, 2, 3, 4], 80⟩ ∧
    processAlternateResponse ⟨0x0101, List.replicate 12 0,
      [⟨0x0005, 8, [0, 1, 0, 80, 1, 2, 3, 4]⟩,
       ⟨0x802C, 8, [0, 1, 0, 81, 5, 6, 7, 8]⟩]⟩ ≠
      .ok ⟨[5, 6, 7, 8], 81⟩ := by
  constructor
  · decide
  · decide

/-- C7 (amended): on a successful response, `GetAlternateAddress` returns
the first attribute in list order whose type is OTHER-ADDRESS *or*
CHANGED-ADDRESS, parsed as a non-XOR address — so whichever of the two
appears first wins — and fails with the alternate-address-missing error
when neither attribute is present. -/
theorem getAlternateAddress_first_match :
    (∀ (t : Nat) (txid : List Nat) (pre post : List STUNAttribute)
      (a : STUNAttribute),
      (∀ x ∈ pre, ¬(x.type = OtherAddress ∨ x.type = ChangedAddress)) →
      (a.type = OtherAddress ∨ a.type = ChangedAddress) →
      processAlternateResponse ⟨t, txid, pre ++ a :: post⟩ =
        liftAddr (parseAddress a.value false txid)) ∧
    (∀ (t : Nat) (txid : List Nat) (attrs : List STUNAttribute),
      (∀ x ∈ attrs, ¬(x.type = OtherAddress ∨ x.type = ChangedAddress)) →
      processAlternateResponse ⟨t, txid, attrs⟩ =
        .error .noAlternateAddress) := by
  constructor
  · intro t txid pre post a hpre ha
    rw [processAlternateResponse]
    simp only [findAlternateAttr_append pre _ hpre, findAlternateAttr,
      if_pos ha]
  · intro t txid attrs h
    rw [processAlternateResponse]
    simp only
    have hnil : attrs ++ [] = attrs := List.append_nil attrs
    rw [← hnil, findAlternateAttr_append attrs _ h]
    rfl

/-- C7 witness: an OTHER-ADDRESS preceded only by an unrelated attribute is
returned, parsed in plain mode; a response without either attribute fails. -/
theorem getAlternateAddress_first_match_witness :
    processAlternateResponse ⟨0x0101, List.replicate 12 0,
      [⟨0x0020, 8, [0, 1, 0, 0, 0, 0, 0, 0]⟩,
       ⟨0x802C, 8, [0, 1, 0, 81, 5, 6, 7, 8]⟩]⟩ =
      liftAddr (parseAddress [0, 1, 0, 81, 5, 6, 7, 8] false
        (List.replicate 12 0)) ∧
    processAlternateResponse ⟨0x0101, List.replicate 12 0,
      [⟨0x0020, 8, [0, 1, 0, 0, 0, 0, 0, 0]⟩]⟩ =
      .error .noAlternateAddress :=
  ⟨getAlternateAddress_first_match.1 0x0101 (List.replicate 12 0)
    [⟨0x0020, 8, [0, 1, 0, 0, 0, 0, 0, 0]⟩] []
    ⟨0x802C, 8, [0, 1, 0, 81, 5, 6, 7, 8]⟩ (by decide) (by decide),
   getAlternateAddress_first_match.2 0x0101 (List.replicate 12 0)
    [⟨0x0020, 8, [0, 1, 0, 0, 0, 0, 0, 0]⟩] (by decide)⟩

/-- C3: once Step 1 has harvested an alternate address, a STUN error
response in Step 2 (Test II) makes the filtering classifier return
`Unknown` with `supports_change_request = false` without consulting the
Test III outcome (the result is the same for every environment agreeing on
Step 1 and Test II), while a Step 2 timeout makes the verdict that of
Step 3: address-dependent filtering if Test III receives a response,
address-and-port-dependent filtering otherwise. -/
theorem checkFiltering_testII_error_vs_timeout :
    ∀ (env : FilteringEnv) (addr : UDPAddr),
      tryPorts env.alternate = .ok addr →
      ((∀ (code : Nat) (reason : List Nat),
        env.testII = .error (.stunError code reason) →
        (CheckFilteringBehavior env).filteringType = .FilteringUnknown ∧
        (CheckFilteringBehavior env).serverSupport.supportsChangeRequest =
          false ∧
        ∀ env2 : FilteringEnv, env2.alternate = env.alternate →
          env2.testII = env.testII →
          CheckFilteringBehavior env2 = CheckFilteringBehavior env) ∧
      (env.testII = .error .timeout →
        ((∃ a, env.testIII = .ok a) →
          (CheckFilteringBehavior env).filteringType =
            .AddressDependentFiltering) ∧
        ((∀ a, env.testIII ≠ .ok a) →
          (CheckFilteringBehavior env).filteringType =
            .AddressPortDependentFiltering))) := by
  intro env addr halt
  obtain ⟨alt, tII, tIII⟩ := env
  simp only at halt
  constructor
  · intro code reason hII
    simp only at hII
    subst hII
    have hres : CheckFilteringBehavior ⟨alt, .error (.stunError code reason),
        tIII⟩ =
        { filteringType := .FilteringUnknown
          response := ⟨some addr, false, false⟩
          serverSupport := ⟨false, true⟩ } := by
      simp [CheckFilteringBehavior, halt, isTimeoutErr]
    refine ⟨by rw [hres], by rw [hres], fun env2 h2a h2II => ?_⟩
    obtain ⟨alt2, tII2, tIII2⟩ := env2
    simp only at h2a h2II
    subst h2a
    subst h2II
    rw [hres]
    simp [CheckFilteringBehavior, halt, isTimeoutErr]
  · intro hII
    simp only at hII
    subst hII
    constructor
    · rintro ⟨a, hIII⟩
      simp only at hIII
      subst hIII
      simp [CheckFilteringBehavior, halt, isTimeoutErr]
    · intro hIII
      cases hIII3 : tIII with
      | ok a => exact absurd hIII3 (hIII a)
      | error e =>
        subst hIII3
        simp [CheckFilteringBehavior, halt, isTimeoutErr]

/-- C3 witness: with the alternate address harvested, a 420 STUN error in
Test II yields `Unknown` and `supports_change_request = false`; a Test II
timeout with a Test III response yields address-dependent filtering. -/
theorem checkFiltering_testII_error_vs_timeout_witness :
    (CheckFilteringBehavior
        ⟨fun _ => .ok ⟨[1], 1⟩, .error (.stunError 420 []),
          .ok ⟨[2], 2⟩⟩).filteringType = .FilteringUnknown ∧
    (CheckFilteringBehavior
        ⟨fun _ => .ok ⟨[1], 1⟩, .error (.stunError 420 []),
          .ok ⟨[2], 2⟩⟩).serverSupport.supportsChangeRequest = false ∧
    (CheckFilteringBehavior
        ⟨fun _ => .ok ⟨[1], 1⟩, .error .timeout,
          .ok ⟨[2], 2⟩⟩).filteringType = .AddressDependentFiltering :=
  ⟨((checkFiltering_testII_error_vs_timeout
      ⟨fun _ => .ok ⟨[1], 1⟩, .error (.stunError 420 []), .ok ⟨[2], 2⟩⟩
      ⟨[1], 1⟩ rfl).1 420 [] rfl).1,
   ((checkFiltering_testII_error_vs_timeout
      ⟨fun _ => .ok ⟨[1], 1⟩, .error (.stunError 420 []), .ok ⟨[2], 2⟩⟩
      ⟨[1], 1⟩ rfl).1 420 [] rfl).2.1,
   ((checkFiltering_testII_error_vs_timeout
      ⟨fun _ => .ok ⟨[1], 1⟩, .error .timeout, .ok ⟨[2], 2⟩⟩
      ⟨[1], 1⟩ rfl).2 rfl).1 ⟨⟨[2], 2⟩, rfl⟩⟩

end NatChecker
